import Mathlib

/-!
Verification of the imgix Terraform provider's API client and convergence
engine (`src/imgix/client.go`, `src/imgix/api_error.go`,
`src/imgix/resource_imgix_source.go`) against its natural-language
specification.

The Go code is shallowly embedded:
* JSON values are the inductive `Json`; Go's `encoding/json` struct
  marshalling (field order, `omitempty` on nil pointers) is translated
  struct-by-struct.
* Go pointers that may be nil become `Option`; a `(value, error)` pair
  whose two components are mutually exclusive becomes `Except`.
* The network is a parameter: an HTTP exchange is an
  `Except String HttpResponse` (transport failure or a response), and the
  two ways the response body can be consumed (`json.Unmarshal` into
  `ApiError`, `json.Decode` into `Source`) are carried as the decode
  outcomes `errorBody` / `sourceBody` of `HttpResponse`.
* The generic polling helper `StateChangeConf.WaitForStateContext` of
  `terraform-plugin-sdk/v2/helper/resource` (a dependency, not part of this
  repository) is embedded as `waitForState`, with real time abstracted into
  a poll budget: the budget is the number of `Refresh` calls that fit
  before `conf.Timeout` elapses.  Its loop semantics follow the SDK: a
  non-nil error from `Refresh` ends the wait at once with that error
  (whatever state string was returned), a state in `Target` ends it with
  the result, a state in `Pending` continues, any other state fails with
  an unexpected-state error when `Pending` is non-empty, and an exhausted
  budget fails with a timeout error carrying the last observed state.
-/

namespace Imgix

/-! ### A model of JSON values (`encoding/json` output) -/

/-- A JSON value.  Objects keep their fields ordered, the way Go's
`encoding/json` emits struct fields in declaration order. -/
inductive Json where
  | null : Json
  | bool (b : Bool) : Json
  | num (n : Int) : Json
  | str (s : String) : Json
  | arr (elems : List Json) : Json
  | obj (fields : List (String × Json)) : Json

/-- The keys of a JSON object, in order; `[]` for a non-object. -/
def Json.objKeys : Json → List String
  | .obj fields => fields.map Prod.fst
  | _ => []

/-- Look a field up in a JSON object (first occurrence). -/
def Json.getField : Json → String → Option Json
  | .obj fields, k => (fields.find? (fun p => p.1 == k)).map Prod.snd
  | _, _ => none

/-! ### Errors (`api_error.go`, `errors.New` values, SDK wait errors) -/

/-- One entry of the imgix error envelope: the anonymous struct inside
`ApiError.Errors` in `api_error.go` (fields in Go declaration order). -/
structure ApiErrorEntry where
  Detail : String
  Status : String
  Title : String
  deriving Repr, DecidableEq

/-- The structured API error of `api_error.go`: an ordered list of
`{status, title, detail}` entries. -/
structure ApiError where
  Errors : List ApiErrorEntry
  deriving Repr, DecidableEq

/-- A Go `error` value as this codebase produces them: either the typed
`ApiError`, a plain `errors.New` / `fmt` string error, or one of the two
structured failures of the SDK wait helper (`TimeoutError` with its
`LastState`, `UnexpectedStateError` with the offending state and the
target list). -/
inductive GoError where
  | apiError (e : ApiError)
  | stringError (msg : String)
  | timeoutError (lastState : String)
  | unexpectedState (state : String) (expected : List String)
  | notFoundError (retries : Nat)
  deriving Repr, DecidableEq

/-- The `aws_access_key` constant `InvalidAwsAccessKeyError` of `client.go`. -/
def InvalidAwsAccessKeyError : String := "aws_access_key"

/-- The constant error `missingAccessKeyError` of `client.go`. -/
def missingAccessKeyError : GoError := .stringError "missing access key"

/-- The `isImgixApiErr` predicate of `api_error.go`: the error is an
`ApiError` and some entry's `Title` equals `title`. -/
def isImgixApiErr (err : GoError) (title : String) : Bool :=
  match err with
  | .apiError e => e.Errors.any (fun k => k.Title == title)
  | _ => false

/-! ### The Source data model (`client.go`) -/

/-- The nested `sourceDeployment` struct of `client.go`, fields in Go
declaration order.  Go nilable pointers become `Option`;
`map[string]interface{}` becomes an ordered association list. -/
structure sourceDeployment where
  AllowsUpload : Option Bool
  Annotation : String
  CacheTtlBehavior : String
  CacheTtlError : Int
  CacheTtlValue : Int
  CrossdomainXmlEnabled : Bool
  CustomDomains : List String
  DefaultParams : List (String × Json)
  ImageError : Option String
  ImageErrorAppendQs : Bool
  ImageMissing : Option String
  ImageMissingAppendQs : Bool
  ImgixSubdomains : List String
  S3AccessKey : Option String
  S3SecretKey : Option String
  S3Bucket : Option String
  S3Prefix : Option String
  GCSAccessKey : Option String
  GCSSecretKey : Option String
  GCSBucket : Option String
  GCSPrefix : Option String
  SecureUrlEnabled : Option Bool
  DeploymentType : String

/-- The `sourceAttributes` struct of `client.go`. -/
structure sourceAttributes where
  DateDeployed : Option Int
  DeploymentStatus : Option String
  Enabled : Option Bool
  Name : String
  SecureUrlToken : Option String
  Deployment : sourceDeployment

/-- The `Source` struct of `client.go`.  `SourceType` is Go's `Type` field
(`Type` is a Lean keyword). -/
structure Source where
  Id : Option String
  SourceType : Option String
  Attributes : sourceAttributes

/-- A nilable JSON field without `omitempty`: Go marshals a nil pointer as
`null` and a set pointer as its value. -/
def jsonNullable {α : Type} (toJson : α → Json) : Option α → Json
  | none => .null
  | some v => toJson v

/-- A JSON field with `omitempty` on a pointer: omitted when nil. -/
def jsonOmitEmpty {α : Type} (key : String) (toJson : α → Json) :
    Option α → List (String × Json)
  | none => []
  | some v => [(key, toJson v)]

/-- Go marshalling of `sourceDeployment`, field by field in declaration
order with the struct's json tags; only `allows_upload` has `omitempty`. -/
def marshalDeployment (d : sourceDeployment) : List (String × Json) :=
  jsonOmitEmpty "allows_upload" Json.bool d.AllowsUpload ++
  [("annotation", .str d.Annotation),
   ("cache_ttl_behavior", .str d.CacheTtlBehavior),
   ("cache_ttl_error", .num d.CacheTtlError),
   ("cache_ttl_value", .num d.CacheTtlValue),
   ("crossdomain_xml_enabled", .bool d.CrossdomainXmlEnabled),
   ("custom_domains", .arr (d.CustomDomains.map Json.str)),
   ("default_params", .obj d.DefaultParams),
   ("image_error", jsonNullable Json.str d.ImageError),
   ("image_error_append_qs", .bool d.ImageErrorAppendQs),
   ("image_missing", jsonNullable Json.str d.ImageMissing),
   ("image_missing_append_qs", .bool d.ImageMissingAppendQs),
   ("imgix_subdomains", .arr (d.ImgixSubdomains.map Json.str)),
   ("s3_access_key", jsonNullable Json.str d.S3AccessKey),
   ("s3_secret_key", jsonNullable Json.str d.S3SecretKey),
   ("s3_bucket", jsonNullable Json.str d.S3Bucket),
   ("s3_prefix", jsonNullable Json.str d.S3Prefix),
   ("gcs_access_key", jsonNullable Json.str d.GCSAccessKey),
   ("gcs_secret_key", jsonNullable Json.str d.GCSSecretKey),
   ("gcs_bucket", jsonNullable Json.str d.GCSBucket),
   ("gcs_prefix", jsonNullable Json.str d.GCSPrefix),
   ("secure_url_enabled", jsonNullable Json.bool d.SecureUrlEnabled),
   ("type", .str d.DeploymentType)]

/-- Go marshalling of `sourceAttributes`: `date_deployed`,
`deployment_status`, `enabled` and `secure_url_token` carry `omitempty`. -/
def marshalAttributes (a : sourceAttributes) : List (String × Json) :=
  jsonOmitEmpty "date_deployed" Json.num a.DateDeployed ++
  jsonOmitEmpty "deployment_status" Json.str a.DeploymentStatus ++
  jsonOmitEmpty "enabled" Json.bool a.Enabled ++
  [("name", .str a.Name)] ++
  jsonOmitEmpty "secure_url_token" Json.str a.SecureUrlToken ++
  [("deployment", .obj (marshalDeployment a.Deployment))]

/-- Default Go marshalling of `Source` (what `json.Marshal` does to the
method-free `alias` type in `Source.MarshalJSON`): `id` and `type` carry
`omitempty`. -/
def marshalSourcePlain (s : Source) : Json :=
  .obj (jsonOmitEmpty "id" Json.str s.Id ++
        jsonOmitEmpty "type" Json.str s.SourceType ++
        [("attributes", .obj (marshalAttributes s.Attributes))])

/-- The custom `Source.MarshalJSON` of `client.go`: before marshalling it
nils out `DateDeployed`, `DeploymentStatus`, `SecureUrlToken` and
`Deployment.AllowsUpload` on a copy. -/
def Source.MarshalJSON (s : Source) : Json :=
  marshalSourcePlain
    { s with
      Attributes :=
        { s.Attributes with
          DateDeployed := none
          DeploymentStatus := none
          SecureUrlToken := none
          Deployment := { s.Attributes.Deployment with AllowsUpload := none } } }

/-- The body `sendSourceRequest` marshals for create and update:
`json.Marshal(SourceRequest{Data: source})`, which invokes
`Source.MarshalJSON` on the `data` field. -/
def writeRequestJson (s : Source) : Json :=
  .obj [("data", Source.MarshalJSON s)]

/-- The `attributes` object of a marshalled write request. -/
def writeRequestAttributes (s : Source) : Json :=
  (((writeRequestJson s).getField "data").bind
    (fun d => d.getField "attributes")).getD .null

/-- The `deployment` object nested inside the `attributes` object of a
marshalled write request. -/
def writeRequestDeployment (s : Source) : Json :=
  ((writeRequestAttributes s).getField "deployment").getD .null

/-! ### Client construction (`NewClient` in `client.go`) -/

/-- The production endpoint constant `apiUrl` of `client.go`. -/
def apiUrl : String := "https://api.imgix.com"

/-- The `TypeSource` constant of `client.go`. -/
def TypeSource : String := "sources"

/-- The `Config` struct of `provider.go`. -/
structure Config where
  AccessKey : String
  ApiBaseUrl : String
  deriving Repr, DecidableEq

/-- The `client` struct of `client.go`. -/
structure Client where
  apiKey : String
  apiUrl : String
  deriving Repr, DecidableEq

/-- The `NewClient` constructor of `client.go`: empty access key fails with
`missingAccessKeyError` (and no client value); otherwise an empty base URL
is replaced by the production `apiUrl`. -/
def NewClient (config : Config) : Except GoError Client :=
  if config.AccessKey = "" then
    .error missingAccessKeyError
  else
    .ok { apiKey := config.AccessKey
          apiUrl := if config.ApiBaseUrl = "" then apiUrl else config.ApiBaseUrl }

/-! ### Error classification (`serializeApiError` in `client.go`) -/

/-- How `serializeApiError` comes to see a non-2xx response body:
`ioutil.ReadAll` failed, or `json.Unmarshal(text, &ApiError{})` failed with
the JSON library's message (body not valid JSON for the envelope), or the
unmarshal produced an `ApiError` value.  The unmarshal itself is library
code, so its outcome is carried rather than recomputed. -/
inductive BodyOutcome where
  | readFailed : BodyOutcome
  | unmarshalFailed (errMsg : String) : BodyOutcome
  | unmarshaled (e : ApiError) : BodyOutcome
  deriving Repr, DecidableEq

/-- The `serializeApiError` function of `client.go`: a read failure yields
`errors.New` of a message holding the numeric status code; an unmarshal
failure yields `errors.New` of `"Error parsing response: "` plus the JSON
library's message (the status code appears nowhere in it); a successful
unmarshal yields the typed `ApiError` itself. -/
def serializeApiError (statusCode : Int) (body : BodyOutcome) : GoError :=
  match body with
  | .readFailed =>
      .stringError ("Error parsing response from request. Status code: "
        ++ toString statusCode)
  | .unmarshalFailed msg => .stringError ("Error parsing response: " ++ msg)
  | .unmarshaled e => .apiError e

/-- Occurrence of `pat` as a contiguous sublist at some position. -/
def containsSublist (pat : List Char) : List Char → Bool
  | [] => pat.isEmpty
  | c :: rest => pat.isPrefixOf (c :: rest) || containsSublist pat rest

/-- Whether `pat` occurs in `s` as a substring (character level); used to
state that an error message does or does not mention a status code. -/
def strContains (s pat : String) : Bool :=
  containsSublist pat.data s.data

/-! ### The three source operations (`client.go`) -/

/-- An HTTP response as the client consumes one: the status code and the
two decoded views of its body (`errorBody` is what `serializeApiError`
sees; `sourceBody` is the outcome of `json.Decode` into a fresh `Source`,
`none` when that decode errors). -/
structure HttpResponse where
  StatusCode : Int
  errorBody : BodyOutcome
  sourceBody : Option Source

/-- The `sendSourceRequest` helper of `client.go` with the network as a
parameter: a transport failure is wrapped in the
`"Error sending request to Imgix API"` message (`json.Marshal` of a
`Source` cannot fail, so that branch is dead). -/
def sendSourceRequest (transport : Except String HttpResponse) :
    Except GoError HttpResponse :=
  match transport with
  | .error msg =>
      .error (.stringError ("Error sending request to Imgix API: " ++ msg))
  | .ok res => .ok res

/-- The zero value `&Source{}` that `createSource` decodes into: all
pointers nil, strings empty, numbers zero, collections empty. -/
def emptySource : Source :=
  { Id := none
    SourceType := none
    Attributes :=
      { DateDeployed := none
        DeploymentStatus := none
        Enabled := none
        Name := ""
        SecureUrlToken := none
        Deployment :=
          { AllowsUpload := none
            Annotation := ""
            CacheTtlBehavior := ""
            CacheTtlError := 0
            CacheTtlValue := 0
            CrossdomainXmlEnabled := false
            CustomDomains := []
            DefaultParams := []
            ImageError := none
            ImageErrorAppendQs := false
            ImageMissing := none
            ImageMissingAppendQs := false
            ImgixSubdomains := []
            S3AccessKey := none
            S3SecretKey := none
            S3Bucket := none
            S3Prefix := none
            GCSAccessKey := none
            GCSSecretKey := none
            GCSBucket := none
            GCSPrefix := none
            SecureUrlEnabled := none
            DeploymentType := "" } } }

/-- The `createSource` method of `client.go`: POST; any status other than
201 is classified by `serializeApiError`; on 201 the body is decoded into
`&Source{}` with the decode error discarded (`_ =`), so a failed decode
leaves the zero value. -/
def createSource (_source : Source) (transport : Except String HttpResponse) :
    Except GoError Source :=
  match sendSourceRequest transport with
  | .error e => .error e
  | .ok res =>
    if res.StatusCode ≠ 201 then
      .error (serializeApiError res.StatusCode res.errorBody)
    else
      .ok (res.sourceBody.getD emptySource)

/-- The `updateSource` method of `client.go`: PATCH to
`"/api/v1/sources/" + *source.Id` (so the embedding covers sources whose
`Id` is set); any status other than 200 is classified by
`serializeApiError`; on 200 the input `source` itself is returned, the
response body untouched. -/
def updateSource (source : Source) (transport : Except String HttpResponse) :
    Except GoError Source :=
  match sendSourceRequest transport with
  | .error e => .error e
  | .ok res =>
    if res.StatusCode ≠ 200 then
      .error (serializeApiError res.StatusCode res.errorBody)
    else
      .ok source

/-- In-place mutation `source.Attributes.Enabled = Bool(false)` performed
by `deleteSource` through the caller's pointer. -/
def setEnabledFalse (source : Source) : Source :=
  { source with
    Attributes := { source.Attributes with Enabled := some false } }

/-- The `deleteSource` method of `client.go`.  Go mutates the caller's
`*Source` and returns only the error; the embedding returns the pair
(in-memory value after the call, error), making the mutation visible. -/
def deleteSource (source : Source) (transport : Except String HttpResponse) :
    Source × Option GoError :=
  let s := setEnabledFalse source
  match updateSource s transport with
  | .ok _ => (s, none)
  | .error e => (s, some e)

/-! ### Subdomain validation (`validateSubdomain` in `resource_imgix_source.go`) -/

/-- Go's `strings.HasSuffix`, at the character level (the suffix tested
here is ASCII, so byte-level and character-level suffix agree). -/
def hasSuffix (s suffix : String) : Bool :=
  suffix.data.isSuffixOf s.data

/-- The `validateSubdomain` function of `resource_imgix_source.go`: a
diagnostic (`some` message) exactly when the domain ends with
`"imgix.net"`; `none` means the value is accepted. -/
def validateSubdomain (domain : String) : Option String :=
  if hasSuffix domain "imgix.net" then
    some ("Subdomains can't contain imgix.net suffix. Invalid record: "
      ++ domain)
  else
    none

/-! ### The generic wait loop (`StateChangeConf.WaitForStateContext`) -/

/-- One return of a `Refresh` closure: `(interface{}, string, error)`. -/
structure RefreshResult (α : Type) where
  result : Option α
  state : String
  error : Option GoError

/-- The refresh loop of `WaitForStateContext`.  `budget` is the number of
`Refresh` calls still fitting before `conf.Timeout`; `i` numbers the calls
(a Go closure's successive invocations become a stream indexed by `i`);
`notfound` is the SDK's `notfoundTick` against its default 20
`NotFoundChecks`; `lastState` is the state of the previous refresh, what a
timeout reports.  Returns the `(interface{}, error)` pair of the Go call
and the number of refresh calls performed.  Branches, in the SDK's order:
a non-nil refresh error ends the wait with that error; a nil result counts
towards not-found; a target state ends the wait with the result
(`ContinuousTargetOccurence` is its default 1); a pending state continues;
any other state is an unexpected-state failure when `Pending` is
non-empty, else the loop continues. -/
def waitForStateAux {α : Type} (pending target : List String)
    (refresh : Nat → RefreshResult α) :
    Nat → Nat → Nat → String → (Option α × Option GoError) × Nat
  | 0, _, _, lastState => ((none, some (.timeoutError lastState)), 0)
  | budget + 1, i, notfound, _ =>
    let r := refresh i
    match r.error with
    | some e => ((r.result, some e), 1)
    | none =>
      match r.result with
      | none =>
        if notfound + 1 > 20 then
          ((none, some (.notFoundError (notfound + 1))), 1)
        else
          let rest := waitForStateAux pending target refresh budget (i + 1)
            (notfound + 1) r.state
          (rest.1, rest.2 + 1)
      | some res =>
        if target.contains r.state then
          ((some res, none), 1)
        else if pending.contains r.state then
          let rest := waitForStateAux pending target refresh budget (i + 1) 0
            r.state
          (rest.1, rest.2 + 1)
        else if pending.isEmpty then
          let rest := waitForStateAux pending target refresh budget (i + 1) 0
            r.state
          (rest.1, rest.2 + 1)
        else
          ((some res, some (.unexpectedState r.state target)), 1)

/-- `WaitForStateContext` on a configuration with the given `Pending` and
`Target` lists, the refresh stream, and a poll budget abstracting
`conf.Timeout`. -/
def waitForState {α : Type} (pending target : List String)
    (refresh : Nat → RefreshResult α) (budget : Nat) :
    (Option α × Option GoError) × Nat :=
  waitForStateAux pending target refresh budget 0 0 ""

/-! ### Deployment convergence (`resource_imgix_source.go`) -/

/-- The `sourceStateRefreshFunc` closure: each `getSourceById` outcome
(stream `getById`) is mapped to a refresh result — an error propagates with
empty state, a nil source becomes the `"source not found"` error, and a
source reports its dereferenced `DeploymentStatus` as the state.  The Go
code dereferences `*source.Attributes.DeploymentStatus`, so the embedding
covers sources whose status is set (`getD ""` never fires on the streams
used here). -/
def sourceStateRefreshFunc (getById : Nat → Except GoError (Option Source))
    (i : Nat) : RefreshResult Source :=
  match getById i with
  | .error e => { result := none, state := "", error := some e }
  | .ok none =>
      { result := none, state := ""
        error := some (.stringError "source not found") }
  | .ok (some s) =>
      { result := some s
        state := (s.Attributes.DeploymentStatus).getD ""
        error := none }

/-- The `waitForSourceToBeDeployed` wait of `resource_imgix_source.go`:
`Pending = ["deploying"]`, `Target = ["deployed"]`, refreshing through
`sourceStateRefreshFunc`; the 5-second initial delay and the caller's
timeout are abstracted into the poll budget. -/
def waitForSourceToBeDeployed (refresh : Nat → RefreshResult Source)
    (budget : Nat) : (Option Source × Option GoError) × Nat :=
  waitForState ["deploying"] ["deployed"] refresh budget

/-! ### Transient-error retry (`makeSourceRequest`) -/

/-- The `Refresh` closure inside `makeSourceRequest`: run the operation;
a failure recognized by `isImgixApiErr _ InvalidAwsAccessKeyError` is
reported as state `"retry"` with the error, any other failure as state
`"error"` with the error, success as state `"ok"` with the source. -/
def makeSourceRequestRefresh (operation : Nat → Except GoError Source)
    (i : Nat) : RefreshResult Source :=
  match operation i with
  | .error e =>
    if isImgixApiErr e InvalidAwsAccessKeyError then
      { result := none, state := "retry", error := some e }
    else
      { result := none, state := "error", error := some e }
  | .ok s => { result := some s, state := "ok", error := none }

/-- The `makeSourceRequest` wrapper of `resource_imgix_source.go`:
`Pending = ["retry"]`, `Target = ["ok"]`, `Delay` 3s, `Timeout` 10s (the
times abstracted into the poll budget). -/
def makeSourceRequest (operation : Nat → Except GoError Source)
    (budget : Nat) : (Option Source × Option GoError) × Nat :=
  waitForState ["retry"] ["ok"] (makeSourceRequestRefresh operation) budget

/-! ### Concrete fixtures for the polling claims -/

/-- A Source whose deployment status is `status`, as a stub `getSourceById`
would resolve it. -/
def mkStatusSource (status : String) : Source :=
  { emptySource with
    Id := some "601430223753592c4e822e2c"
    Attributes := { emptySource.Attributes with
                    DeploymentStatus := some status } }

/-- A refresh stream driven by a list of deployment statuses: poll `i`
resolves a Source in status `statuses[i]` (past the end: `fallback`). -/
def statusRefresh (statuses : List String) (fallback : String)
    (i : Nat) : RefreshResult Source :=
  let st := statuses.getD i fallback
  { result := some (mkStatusSource st), state := st, error := none }

/-- The transient invalid-access-key rejection: an `ApiError` with one
entry whose `Title` is `InvalidAwsAccessKeyError`. -/
def invalidKeyApiError : ApiError :=
  { Errors := [{ Detail := "invalid key", Status := "400"
                 Title := InvalidAwsAccessKeyError }] }

/-! ### Unfolding and stepping lemmas for the wait loop -/

/-- One unfolding of `waitForStateAux` on a positive budget. -/
theorem waitForStateAux_succ {α : Type} (pending target : List String)
    (refresh : Nat → RefreshResult α) (budget i notfound : Nat) (last : String) :
    waitForStateAux pending target refresh (budget + 1) i notfound last
      = (let r := refresh i
         match r.error with
         | some e => ((r.result, some e), 1)
         | none =>
           match r.result with
           | none =>
             if notfound + 1 > 20 then
               ((none, some (.notFoundError (notfound + 1))), 1)
             else
               let rest := waitForStateAux pending target refresh budget (i + 1)
                 (notfound + 1) r.state
               (rest.1, rest.2 + 1)
           | some res =>
             if target.contains r.state then
               ((some res, none), 1)
             else if pending.contains r.state then
               let rest := waitForStateAux pending target refresh budget (i + 1) 0
                 r.state
               (rest.1, rest.2 + 1)
             else if pending.isEmpty then
               let rest := waitForStateAux pending target refresh budget (i + 1) 0
                 r.state
               (rest.1, rest.2 + 1)
             else
               ((some res, some (.unexpectedState r.state target)), 1)) := rfl

/-- A refresh stream stuck on `"deploying"` exhausts any positive budget
and times out carrying `"deploying"` as the last observed state, having
used the whole budget in polls. -/
theorem waitAux_deploying (refresh : Nat → RefreshResult Source)
    (h : ∀ i, refresh i = { result := some (mkStatusSource "deploying")
                            state := "deploying", error := none }) :
    ∀ (budget i notfound : Nat) (last : String),
      waitForStateAux ["deploying"] ["deployed"] refresh (budget + 1) i notfound
          last
        = ((none, some (.timeoutError "deploying")), budget + 1) := by
  intro budget
  induction budget with
  | zero =>
    intro i nf last
    rw [waitForStateAux_succ, h i]
    rfl
  | succ n ih =>
    intro i nf last
    rw [waitForStateAux_succ, h i]
    show ((waitForStateAux ["deploying"] ["deployed"] refresh (n + 1) (i + 1) 0
            "deploying").1,
          (waitForStateAux ["deploying"] ["deployed"] refresh (n + 1) (i + 1) 0
            "deploying").2 + 1)
        = ((none, some (.timeoutError "deploying")), n + 1 + 1)
    rw [ih (i + 1) 0 "deploying"]

/-- A refresh delivering a result in a state that is neither pending nor a
target makes the wait fail at once with the unexpected-state error (the
SDK path taken because `Pending` is non-empty). -/
theorem waitAux_unexpected {α : Type} (pending target : List String)
    (refresh : Nat → RefreshResult α) (budget i notfound : Nat) (last : String)
    (s : α) (st : String)
    (h0 : refresh i = { result := some s, state := st, error := none })
    (htgt : st ∉ target) (hpnd : st ∉ pending)
    (hne : pending.isEmpty = false) :
    waitForStateAux pending target refresh (budget + 1) i notfound last
      = ((some s, some (.unexpectedState st target)), 1) := by
  rw [waitForStateAux_succ, h0]
  simp [htgt, hpnd, hne]

/-! ### Theorems -/

/-- C1: the JSON marshalled for a write request (`Source.MarshalJSON`
wrapped in the `{"data": …}` envelope, as `sendSourceRequest` produces for
create and update) never contains a `date_deployed`, `deployment_status`
or `secure_url_token` field in its attributes object, nor an
`allows_upload` field in its nested deployment object, whatever the
in-memory `Source` holds. -/
theorem writeRequest_suppresses_server_fields (s : Source) :
    "date_deployed" ∉ (writeRequestAttributes s).objKeys ∧
    "deployment_status" ∉ (writeRequestAttributes s).objKeys ∧
    "secure_url_token" ∉ (writeRequestAttributes s).objKeys ∧
    "allows_upload" ∉ (writeRequestDeployment s).objKeys := by
  obtain ⟨id, ty, attrs⟩ := s
  obtain ⟨dd, ds, en, nm, tok, dep⟩ := attrs
  cases id <;> cases ty <;> cases en <;>
    simp [writeRequestAttributes, writeRequestDeployment, writeRequestJson,
      Source.MarshalJSON, marshalSourcePlain, marshalAttributes,
      marshalDeployment, jsonOmitEmpty, Json.getField, Json.objKeys]

/-- C2 counterexample: on a stub status sequence whose first observed
status is the terminal `"disabled"`, the convergence wait does not return
the resolved Source as a success: only `"deployed"` is a target state, so
the wait ends after one poll with an unexpected-state error (the error
component is not `none`). -/
theorem waitDeployed_disabled_counterexample :
    waitForSourceToBeDeployed (statusRefresh ["disabled"] "disabled") 10
      = ((some (mkStatusSource "disabled"),
          some (.unexpectedState "disabled" ["deployed"])), 1) ∧
    (waitForSourceToBeDeployed (statusRefresh ["disabled"] "disabled") 10).1.2
      ≠ none :=
  ⟨rfl, by decide⟩

/-- C2 as amended: the wait keeps polling while the status is
`"deploying"` and returns the resolved Source only on `"deployed"` — for
the stub sequence `[deploying, deploying, deployed]` after exactly 3
polls; a stream that never leaves `"deploying"` exhausts the budget and
fails with the timeout error carrying `"deploying"` as last observed
status; a terminal-but-not-target status (such as `"disabled"` or
`"deleted"`) ends the wait at once with an unexpected-state error
carrying that status, not with a successful return. -/
theorem waitForSourceToBeDeployed_spec (budget : Nat)
    (refresh : Nat → RefreshResult Source) (s : Source) (st : String) :
    (waitForSourceToBeDeployed
        (statusRefresh ["deploying", "deploying", "deployed"] "deployed") 30
      = ((some (mkStatusSource "deployed"), none), 3)) ∧
    ((∀ i, refresh i = { result := some (mkStatusSource "deploying")
                         state := "deploying", error := none }) →
      1 ≤ budget →
      waitForSourceToBeDeployed refresh budget
        = ((none, some (.timeoutError "deploying")), budget)) ∧
    (refresh 0 = { result := some s, state := st, error := none } →
      st ≠ "deploying" → st ≠ "deployed" → 1 ≤ budget →
      waitForSourceToBeDeployed refresh budget
        = ((some s, some (.unexpectedState st ["deployed"])), 1)) := by
  refine ⟨rfl, ?_, ?_⟩
  · intro h hb
    obtain ⟨b, rfl⟩ : ∃ b, budget = b + 1 :=
      ⟨budget - 1, (Nat.succ_pred_eq_of_pos hb).symm⟩
    exact waitAux_deploying refresh h b 0 0 ""
  · intro h0 hd1 hd2 hb
    obtain ⟨b, rfl⟩ : ∃ b, budget = b + 1 :=
      ⟨budget - 1, (Nat.succ_pred_eq_of_pos hb).symm⟩
    exact waitAux_unexpected ["deploying"] ["deployed"] refresh b 0 0 "" s st h0
      (by simp [hd2]) (by simp [hd1]) rfl

/-- Witness for C2 as amended: a stream stuck on `"deploying"` with a
budget of 4 polls times out carrying `"deploying"`, and a stream whose
first status is the terminal `"deleted"` fails after one poll with the
unexpected-state error. -/
theorem waitForSourceToBeDeployed_spec_witness :
    waitForSourceToBeDeployed (statusRefresh [] "deploying") 4
      = ((none, some (.timeoutError "deploying")), 4) ∧
    waitForSourceToBeDeployed (statusRefresh ["deleted"] "deleted") 7
      = ((some (mkStatusSource "deleted"),
          some (.unexpectedState "deleted" ["deployed"])), 1) :=
  ⟨(waitForSourceToBeDeployed_spec 4 (statusRefresh [] "deploying")
      emptySource "x").2.1 (fun i => by cases i <;> rfl) (by decide),
   (waitForSourceToBeDeployed_spec 7 (statusRefresh ["deleted"] "deleted")
      (mkStatusSource "deleted") "deleted").2.2 rfl (by decide) (by decide)
      (by decide)⟩

/-- C3: evaluation at the failing input.  An operation that fails with the
recognized transient invalid-access-key `ApiError` is **not** re-attempted:
the wrapper surfaces the error after exactly one attempt (one poll), even
with budget left and even when a second attempt would have succeeded — the
non-nil refresh error makes the SDK wait abort before the `"retry"`
pending state can matter.  The title is indeed the recognized one, other
errors also surface at once, and a success returns its Source. -/
theorem makeSourceRequest_no_retry :
    makeSourceRequest (fun _ => .error (.apiError invalidKeyApiError)) 3
      = ((none, some (.apiError invalidKeyApiError)), 1) ∧
    makeSourceRequest
        (fun i => if i = 0 then .error (.apiError invalidKeyApiError)
                  else .ok (mkStatusSource "deployed")) 5
      = ((none, some (.apiError invalidKeyApiError)), 1) ∧
    isImgixApiErr (.apiError invalidKeyApiError) InvalidAwsAccessKeyError
      = true ∧
    makeSourceRequest (fun _ => .error (.stringError "boom")) 3
      = ((none, some (.stringError "boom")), 1) ∧
    makeSourceRequest (fun _ => .ok (mkStatusSource "deployed")) 3
      = ((some (mkStatusSource "deployed"), none), 1) :=
  ⟨rfl, rfl, rfl, rfl, rfl⟩

/-- C4 counterexample: a 500 response whose body does not parse as the
error envelope is classified as the generic
`"Error parsing response: …"` string error, whose message does not
mention the status code 500 anywhere — refuting the claim that a parse
failure yields an error carrying the raw numeric status code. -/
theorem serializeApiError_counterexample :
    serializeApiError 500
        (.unmarshalFailed "invalid character i looking for beginning of value")
      = .stringError
          "Error parsing response: invalid character i looking for beginning of value" ∧
    strContains
        "Error parsing response: invalid character i looking for beginning of value"
        "500" = false :=
  ⟨rfl, by decide⟩

/-- C4 as amended: when the body parses as the envelope the result is the
`ApiError` holding the ordered entry list; when the body cannot even be
read, the result is a generic string error that does carry the numeric
status code; but when the body reads and merely fails to parse as the
envelope, the result is a generic string error carrying only the JSON
library's message, without the status code. -/
theorem serializeApiError_spec (code : Int) (msg : String) (e : ApiError) :
    serializeApiError code (.unmarshaled e) = .apiError e ∧
    (∃ pre, serializeApiError code .readFailed
      = .stringError (pre ++ toString code)) ∧
    serializeApiError code (.unmarshalFailed msg)
      = .stringError ("Error parsing response: " ++ msg) :=
  ⟨rfl, ⟨"Error parsing response from request. Status code: ", rfl⟩, rfl⟩

/-- C5: subdomain validation accepts a string exactly when it does not end
with the reserved `"imgix.net"` suffix; in particular `"test"` and
`"test-2"` are accepted while `"test.imgix.net"` and `"test-2.imgix.net"`
are rejected. -/
theorem validateSubdomain_spec :
    (∀ d : String, validateSubdomain d = none ↔ hasSuffix d "imgix.net" = false) ∧
    validateSubdomain "test" = none ∧
    validateSubdomain "test-2" = none ∧
    (validateSubdomain "test.imgix.net").isSome = true ∧
    (validateSubdomain "test-2.imgix.net").isSome = true := by
  refine ⟨fun d => ?_, by decide, by decide, by decide, by decide⟩
  unfold validateSubdomain
  rcases h : hasSuffix d "imgix.net" <;> simp [h]

/-- C6: constructing a client with an empty access key fails with the
`missingAccessKeyError` and yields no client value; with a non-empty key
it succeeds, an empty base URL defaulting to the production endpoint and
a non-empty one kept as given. -/
theorem NewClient_spec (config : Config) :
    (config.AccessKey = "" → NewClient config = .error missingAccessKeyError) ∧
    (config.AccessKey ≠ "" →
      NewClient config =
        .ok { apiKey := config.AccessKey
              apiUrl := if config.ApiBaseUrl = "" then apiUrl
                        else config.ApiBaseUrl }) := by
  constructor
  · intro h
    simp [NewClient, h]
  · intro h
    simp [NewClient, h]

/-- Witness for C6 at concrete configurations: the empty key `""` fails
with the missing-credential error, the key `"abc"` with empty base URL
yields the production endpoint, and a non-empty base URL is kept. -/
theorem NewClient_spec_witness :
    NewClient { AccessKey := "", ApiBaseUrl := "http://x" }
      = .error missingAccessKeyError ∧
    NewClient { AccessKey := "abc", ApiBaseUrl := "" }
      = .ok { apiKey := "abc", apiUrl := "https://api.imgix.com" } ∧
    NewClient { AccessKey := "abc", ApiBaseUrl := "http://x" }
      = .ok { apiKey := "abc", apiUrl := "http://x" } := by
  refine ⟨(NewClient_spec _).1 rfl, ?_, ?_⟩
  · have h := (NewClient_spec { AccessKey := "abc", ApiBaseUrl := "" }).2
      (by decide)
    simpa using h
  · have h := (NewClient_spec { AccessKey := "abc", ApiBaseUrl := "http://x" }).2
      (by decide)
    simpa using h

/-- C7: `updateSource` on a delivered PATCH response succeeds exactly when
the status is 200, in which case it returns the caller's input `source`
itself whatever the response body holds; on any other status it returns
the classified error of `serializeApiError` and no Source; a transport
failure is wrapped and propagated. -/
theorem updateSource_spec (source : Source) (res : HttpResponse) :
    (updateSource source (.ok res) = .ok source ↔ res.StatusCode = 200) ∧
    (res.StatusCode ≠ 200 →
      updateSource source (.ok res)
        = .error (serializeApiError res.StatusCode res.errorBody)) ∧
    (∀ msg, updateSource source (.error msg)
      = .error (.stringError ("Error sending request to Imgix API: " ++ msg))) := by
  refine ⟨?_, ?_, fun msg => rfl⟩
  · by_cases h : res.StatusCode = 200 <;> simp [updateSource, sendSourceRequest, h]
  · intro h
    simp [updateSource, sendSourceRequest, h]

/-- Witness for C7: with status 200 the input source comes back unchanged
(here against a body that would not even parse), and status 404 yields the
classified error. -/
theorem updateSource_spec_witness :
    updateSource emptySource
        (.ok { StatusCode := 200, errorBody := .readFailed, sourceBody := none })
      = .ok emptySource ∧
    updateSource emptySource
        (.ok { StatusCode := 404, errorBody := .readFailed, sourceBody := none })
      = .error (serializeApiError 404 .readFailed) :=
  ⟨(updateSource_spec emptySource
      { StatusCode := 200, errorBody := .readFailed, sourceBody := none }).1.mpr rfl,
   (updateSource_spec emptySource
      { StatusCode := 404, errorBody := .readFailed, sourceBody := none }).2.1
      (by decide)⟩

/-- Evaluation of `deleteSource`: the in-memory value is always the
`enabled=false` copy and the error is exactly the single update's. -/
theorem deleteSource_eq (source : Source)
    (transport : Except String HttpResponse) :
    deleteSource source transport
      = (setEnabledFalse source,
         match updateSource (setEnabledFalse source) transport with
         | .ok _ => none
         | .error e => some e) := by
  cases hu : updateSource (setEnabledFalse source) transport <;>
    simp [deleteSource, hu]

/-- Inversion for `updateSource`: a success always returns the input. -/
theorem updateSource_ok_inv (source s : Source)
    (transport : Except String HttpResponse)
    (h : updateSource source transport = .ok s) : s = source := by
  rcases transport with msg | res
  · simp [updateSource, sendSourceRequest] at h
  · by_cases h200 : res.StatusCode = 200
    · simp [updateSource, sendSourceRequest, h200] at h
      exact h.symm
    · simp [updateSource, sendSourceRequest, h200] at h

/-- C8: `deleteSource` sets `enabled` to `false` on the in-memory value and
issues exactly one update with that value: the in-memory result is always
the `enabled=false` copy, and the returned error is `none` exactly when
that single update succeeded. -/
theorem deleteSource_spec (source : Source)
    (transport : Except String HttpResponse) :
    (deleteSource source transport).1 = setEnabledFalse source ∧
    (deleteSource source transport).1.Attributes.Enabled = some false ∧
    ((deleteSource source transport).2 = none ↔
      updateSource (setEnabledFalse source) transport
        = .ok (setEnabledFalse source)) := by
  rw [deleteSource_eq]
  refine ⟨rfl, rfl, ?_⟩
  cases hu : updateSource (setEnabledFalse source) transport with
  | error e => simp
  | ok s =>
    simp only [Option.some.injEq]
    simp
    exact updateSource_ok_inv _ _ _ hu

/-- Witness for C8: a delivered 200 response leaves `enabled=false` and no
error; the `↔` is discharged in the success direction at that input. -/
theorem deleteSource_spec_witness :
    (deleteSource emptySource
      (.ok { StatusCode := 200, errorBody := .readFailed, sourceBody := none })).2
      = none :=
  (deleteSource_spec emptySource
    (.ok { StatusCode := 200, errorBody := .readFailed, sourceBody := none })).2.2.mpr
    rfl

/-- C9: `deleteSource` mutates the caller's Source before contacting the
API: when the underlying update fails with `e`, the call still leaves the
in-memory value with `enabled=false` while returning `some e` — the
mutation is not rolled back on error. -/
theorem deleteSource_mutates_on_error (source : Source)
    (transport : Except String HttpResponse) (e : GoError)
    (h : updateSource (setEnabledFalse source) transport = .error e) :
    deleteSource source transport = (setEnabledFalse source, some e) ∧
    (setEnabledFalse source).Attributes.Enabled = some false := by
  refine ⟨?_, rfl⟩
  rw [deleteSource_eq, h]

/-- Witness for C9: a transport failure returns an error, yet the
in-memory copy ends with `enabled=false`. -/
theorem deleteSource_mutates_on_error_witness :
    deleteSource emptySource (.error "connection refused")
      = (setEnabledFalse emptySource,
         some (.stringError
           "Error sending request to Imgix API: connection refused")) ∧
    (setEnabledFalse emptySource).Attributes.Enabled = some false :=
  deleteSource_mutates_on_error emptySource (.error "connection refused") _ rfl

/-- C10: a 201 response whose body fails to decode as a Source makes
`createSource` return the zero-valued `Source` — whose `Id` is `none` —
with no error at all: the decode failure is discarded. -/
theorem createSource_swallows_decode_failure (source : Source)
    (res : HttpResponse) (h201 : res.StatusCode = 201)
    (hdec : res.sourceBody = none) :
    createSource source (.ok res) = .ok emptySource ∧
    emptySource.Id = none := by
  constructor
  · simp [createSource, sendSourceRequest, h201, hdec]
  · rfl

/-- Witness for C10: a concrete 201 response with an undecodable body
yields the zero Source and no error. -/
theorem createSource_swallows_decode_failure_witness :
    createSource emptySource
        (.ok { StatusCode := 201, errorBody := .readFailed, sourceBody := none })
      = .ok emptySource ∧
    emptySource.Id = none :=
  createSource_swallows_decode_failure emptySource
    { StatusCode := 201, errorBody := .readFailed, sourceBody := none } rfl rfl

end Imgix
